import Mathlib

/-!
Shallow embedding of the `protected-js` pattern (protected.js /
protected-base.js, protected-sub.js, protected-cross-instance.js, demo.js).

Modelling conventions:
* JavaScript object identity is modelled by natural-number ids.  The
  GuardedState object created by the base constructor is represented by its
  id alone; its (open-ended) property contents only matter for the
  freshness claim and are modelled there by an allocator.
* Each subscribing level `i` of a hierarchy owns a private slot
  `this.#guarded`; the family of slots of one instance is a function
  `Nat → Option Nat` (`none` models the JavaScript value `undefined`, which
  is falsy; `some g` models a reference to object `g`, which is truthy).
* The pending-subscription `Set` is modelled as a list in insertion order.
  JavaScript `Set` iteration visits entries in insertion order and deleting
  the entry currently being visited is safe, so the source loop
  `for (const sub of subs) { sub(guarded); subs.delete(sub); }`
  is processing the head and recursing on the tail.
* A callback may throw when invoked: `run g s = none` models a throw (with
  no state change), `run g s = some s2` a normal return that updated the
  instance state to `s2`.  The level callbacks registered by `_subGuarded`
  never throw.
-/

namespace ProtectedJs

/-- The family of level-local `#guarded` slots of one instance: slot `i`
belongs to the `i`-th subscribing level above the base class (level 0 is the
root-most subclass of the base).  `none` is JavaScript `undefined`. -/
abbrev Slots := Nat → Option Nat

/-- A subscriber callback held in the pending set.  `cid` is the identity of
the function object (JavaScript `Set` membership and `delete` work by
identity).  `run g s` is the effect of invoking the callback with the
GuardedState `g` in instance state `s`: `none` models the callback throwing
(before any state change), `some s2` a normal return. -/
structure Callback (σ : Type) where
  cid : Nat
  run : Nat → σ → Option σ

/-- Result of the `for (const sub of subs)` loop inside `_getGuarded`:
whether an error was thrown (and caught by the surrounding `catch`), the
subscriptions still pending, the resulting instance state, and the ids of
the callbacks that were invoked during the loop, in invocation order. -/
structure LoopResult (σ : Type) where
  threw : Bool
  pending : List (Callback σ)
  state : σ
  invoked : List Nat

/-- The distribution loop of `_getGuarded`:
`for (const sub of subs) { sub(guarded); subs.delete(sub); }`.
Each pending callback is invoked with the GuardedState `g`; on normal return
it is deleted from the pending set and iteration continues; if it throws,
the `delete` is skipped and the loop is aborted (the `try` block wraps the
whole loop, so control jumps straight to `catch`). -/
def distributeLoop {σ : Type} (g : Nat) : List (Callback σ) → σ → LoopResult σ
  | [], s => ⟨false, [], s, []⟩
  | cb :: rest, s =>
    match cb.run g s with
    | none => ⟨true, cb :: rest, s, [cb.cid]⟩
    | some s2 =>
      let r := distributeLoop g rest s2
      ⟨r.threw, r.pending, r.state, cb.cid :: r.invoked⟩

/-- Running a list of callbacks in order, threading the state.  This is the
state effect of `distributeLoop` on a stretch of callbacks that do not throw,
and it is also the demo's forced-redistribution loop
`for (const sub of subs) sub(newGuarded);` (whose callbacks, the level
callbacks, never throw, so the `getD` fallback never fires there). -/
def applyAll {σ : Type} (g : Nat) : List (Callback σ) → σ → σ
  | [], s => s
  | cb :: rest, s => applyAll g rest ((cb.run g s).getD s)

/-- The body of level `i`'s subscriber callback, `(g) => this.#guarded ||= g`:
assign `g` into level `i`'s slot only when that slot is still unset
(`undefined` is falsy, an object reference is truthy). -/
def levelAssign (i g : Nat) (s : Slots) : Slots :=
  fun j => if j = i then (s i).orElse (fun _ => some g) else s j

/-- The subscriber callback registered by level `i`'s `_subGuarded`
(`subs.add((g) => this.#guarded ||= g)`).  It never throws. -/
def levelCallback (i : Nat) : Callback Slots :=
  ⟨i, fun g s => some (levelAssign i g s)⟩

/-- `_subGuarded` as virtually dispatched for a hierarchy with `n`
subscribing levels above the base: the base implementation is a no-op stub
(`_subGuarded () { }`); level `i`'s override first delegates to its parent
(`super._subGuarded(subs)` must be first) and then adds its own callback. -/
def subGuarded : Nat → List (Callback Slots)
  | 0 => []
  | n + 1 => subGuarded n ++ [levelCallback n]

/-- An instance of a hierarchy built on the base class: the base class's
private `#guarded` (the id of the GuardedState object created in the base
constructor), the level-local slots, and the pending-subscription set
`#guardedSubs`. -/
structure Inst where
  guarded : Nat
  slots : Slots
  subs : List (Callback Slots)

/-- The base-class constructor, for an instance whose most-derived class has
`n` subscribing levels: `this.#guarded = { }` yields the GuardedState `g`,
then `this._subGuarded(this.#guardedSubs)` (virtual dispatch to the
most-derived override) registers the level callbacks root-first.  All
level-local slots are still `undefined` at this point. -/
def baseConstruct (n g : Nat) : Inst :=
  ⟨g, fun _ => none, subGuarded n⟩

/-- `_getGuarded()`: run the distribution loop over the pending set inside
`try { ... } catch (_) { }`.  The catch body is empty, so whether or not the
loop threw, the method returns normally with the loop's pending set and
state; the `threw` flag is discarded here, exactly as the empty `catch`
discards the error. -/
def Inst.getGuarded (inst : Inst) : Inst :=
  ⟨inst.guarded, (distributeLoop inst.guarded inst.subs inst.slots).state,
   (distributeLoop inst.guarded inst.subs inst.slots).pending⟩

/-- Iterate `_getGuarded` `k` times: each subscribing level's constructor
calls `this._getGuarded()` once, after `super()` returns. -/
def getGuardedIter : Nat → Inst → Inst
  | 0, inst => inst
  | k + 1, inst => getGuardedIter k inst.getGuarded

/-- Full construction of a depth-`n` instance whose GuardedState is `g`:
the base constructor runs first (creating `g` and collecting the `n` level
callbacks), then each of the `n` subscribing constructors, from the
root-most level outwards, calls `this._getGuarded()` after `super()`. -/
def constructChain (n g : Nat) : Inst :=
  getGuardedIter n (baseConstruct n g)

/-- A list of callbacks none of which throws on the GuardedState `g`, in any
instance state. -/
def NeverThrows {σ : Type} (g : Nat) (cbs : List (Callback σ)) : Prop :=
  ∀ cb ∈ cbs, ∀ s, (cb.run g s).isSome

lemma distributeLoop_cons_none {σ : Type} {g : Nat} {cb : Callback σ}
    {rest : List (Callback σ)} {s : σ} (h : cb.run g s = none) :
    distributeLoop g (cb :: rest) s = ⟨true, cb :: rest, s, [cb.cid]⟩ := by
  simp [distributeLoop, h]

lemma distributeLoop_cons_some {σ : Type} {g : Nat} {cb : Callback σ}
    {rest : List (Callback σ)} {s s2 : σ} (h : cb.run g s = some s2) :
    distributeLoop g (cb :: rest) s =
      ⟨(distributeLoop g rest s2).threw, (distributeLoop g rest s2).pending,
       (distributeLoop g rest s2).state, cb.cid :: (distributeLoop g rest s2).invoked⟩ := by
  simp [distributeLoop, h]

lemma applyAll_cons_some {σ : Type} {g : Nat} {cb : Callback σ}
    {rest : List (Callback σ)} {s s2 : σ} (h : cb.run g s = some s2) :
    applyAll g (cb :: rest) s = applyAll g rest s2 := by
  simp [applyAll, h]

lemma applyAll_append {σ : Type} (g : Nat) (l1 l2 : List (Callback σ)) (s : σ) :
    applyAll g (l1 ++ l2) s = applyAll g l2 (applyAll g l1 s) := by
  induction l1 generalizing s with
  | nil => rfl
  | cons cb rest ih => simp [applyAll, ih]

/-- When no pending callback throws, the loop runs to completion: it threads
the state through every callback in insertion order, empties the pending
set, and the invocation log is exactly the pending list's ids in order. -/
lemma distributeLoop_ok {σ : Type} {g : Nat} {cbs : List (Callback σ)}
    (h : NeverThrows g cbs) (s : σ) :
    distributeLoop g cbs s =
      ⟨false, [], applyAll g cbs s, cbs.map (fun c => c.cid)⟩ := by
  induction cbs generalizing s with
  | nil => rfl
  | cons cb rest ih =>
    obtain ⟨s2, hs2⟩ := Option.isSome_iff_exists.mp (h cb (List.mem_cons_self cb rest) s)
    rw [distributeLoop_cons_some hs2, applyAll_cons_some hs2,
      ih (fun c hc t => h c (List.mem_cons_of_mem cb hc) t) s2]
    rfl

/-- Running the loop over `l1 ++ l2` where nothing in `l1` throws: the `l1`
stretch is fully delivered and removed, then the loop continues into `l2`
from the updated state. -/
lemma distributeLoop_append_ok {σ : Type} {g : Nat} {l1 : List (Callback σ)}
    (l2 : List (Callback σ)) (h : NeverThrows g l1) (s : σ) :
    distributeLoop g (l1 ++ l2) s =
      ⟨(distributeLoop g l2 (applyAll g l1 s)).threw,
       (distributeLoop g l2 (applyAll g l1 s)).pending,
       (distributeLoop g l2 (applyAll g l1 s)).state,
       l1.map (fun c => c.cid) ++ (distributeLoop g l2 (applyAll g l1 s)).invoked⟩ := by
  induction l1 generalizing s with
  | nil => rfl
  | cons cb rest ih =>
    obtain ⟨s2, hs2⟩ := Option.isSome_iff_exists.mp (h cb (List.mem_cons_self cb rest) s)
    rw [List.cons_append, distributeLoop_cons_some hs2, applyAll_cons_some hs2,
      ih (fun c hc t => h c (List.mem_cons_of_mem cb hc) t) s2]
    rfl

/-- Characterization of a distribution call in which the callback `cb`
throws: the callbacks before `cb` (none of which throws) are each invoked
and removed, `cb` is invoked, throws and is not removed, and the loop then
aborts, leaving `cb` and everything after it pending and uninvoked. -/
lemma distributeLoop_throw {σ : Type} {g : Nat} {pre : List (Callback σ)}
    (post : List (Callback σ)) {cb : Callback σ} (hpre : NeverThrows g pre)
    (hcb : ∀ t, cb.run g t = none) (s : σ) :
    distributeLoop g (pre ++ cb :: post) s =
      ⟨true, cb :: post, applyAll g pre s, pre.map (fun c => c.cid) ++ [cb.cid]⟩ := by
  rw [distributeLoop_append_ok (cb :: post) hpre s,
    distributeLoop_cons_none (hcb (applyAll g pre s))]

lemma subGuarded_eq_map (n : Nat) :
    subGuarded n = (List.range n).map levelCallback := by
  induction n with
  | zero => rfl
  | succ m ih => rw [subGuarded, ih, List.range_succ, List.map_append]; rfl

lemma subGuarded_neverThrows (g n : Nat) : NeverThrows g (subGuarded n) := by
  intro cb hcb s
  rw [subGuarded_eq_map] at hcb
  obtain ⟨i, _, hi⟩ := List.mem_map.mp hcb
  rw [← hi]
  rfl

lemma levelAssign_of_unset {s : Slots} {i : Nat} (h : s i = none) (g : Nat) :
    levelAssign i g s = fun j => if j = i then some g else s j := by
  funext j
  by_cases hj : j = i <;> simp [levelAssign, hj, h]

/-- Distributing `g` through all `n` level callbacks, starting from entirely
unset slots, sets every slot `i < n` to `g`. -/
lemma applyAll_subGuarded (g n : Nat) :
    applyAll g (subGuarded n) (fun _ => none) =
      fun i => if i < n then some g else none := by
  induction n with
  | zero => funext i; simp [subGuarded, applyAll]
  | succ m ih =>
    rw [subGuarded, applyAll_append, ih]
    funext i
    have hrun : (levelCallback m).run g (fun i => if i < m then some g else none) =
        some (levelAssign m g (fun i => if i < m then some g else none)) := rfl
    rw [applyAll_cons_some hrun]
    show levelAssign m g (fun i => if i < m then some g else none) i = _
    rw [levelAssign_of_unset (by simp)]
    by_cases h1 : i = m
    · simp [h1]
    · by_cases h2 : i < m
      · simp [h1, h2, Nat.lt_succ_of_lt h2]
      · simp [h1, h2, show ¬ i < m + 1 by omega]

lemma getGuarded_of_empty {inst : Inst} (h : inst.subs = []) :
    inst.getGuarded = inst := by
  obtain ⟨g, s, su⟩ := inst
  cases h
  rfl

lemma getGuardedIter_of_empty {inst : Inst} (h : inst.subs = []) (k : Nat) :
    getGuardedIter k inst = inst := by
  induction k with
  | zero => rfl
  | succ m ih => rw [getGuardedIter, getGuarded_of_empty h, ih]

/-- The state of a fully constructed depth-`n` instance: the base-level
`#guarded` is the GuardedState `g` created by the base constructor, every
level-local slot `i < n` holds `g`, and the pending set has been drained. -/
lemma constructChain_eq (n g : Nat) :
    constructChain n g = ⟨g, fun i => if i < n then some g else none, []⟩ := by
  cases n with
  | zero =>
    show baseConstruct 0 g = _
    have : (fun _ => (none : Option Nat)) = fun i => if i < 0 then some g else none := by
      funext i; simp
    rw [baseConstruct, this]
    rfl
  | succ m =>
    rw [constructChain, getGuardedIter]
    have hfirst : (baseConstruct (m + 1) g).getGuarded =
        ⟨g, fun i => if i < m + 1 then some g else none, []⟩ := by
      show (⟨g, _, _⟩ : Inst) = _
      rw [show (baseConstruct (m + 1) g).subs = subGuarded (m + 1) from rfl,
        show (baseConstruct (m + 1) g).slots = fun _ => none from rfl,
        show (baseConstruct (m + 1) g).guarded = g from rfl,
        distributeLoop_ok (subGuarded_neverThrows g (m + 1)) _,
        applyAll_subGuarded g (m + 1)]
    rw [hfirst, getGuardedIter_of_empty rfl]

/-- JavaScript error values thrown by the pattern: `Error` and `TypeError`
are distinct constructors, matching the distinct error classes used by the
source. -/
inductive JsError where
  | err (msg : String)
  | typeError (msg : String)
deriving DecidableEq

/-- The base class's pseudo-protected method
`guardedMethod (guarded) { if (guarded !== this.#guarded) throw new Error('Unauthorized method call'); }`
from the base class of protected.js: the caller-supplied reference is
compared by identity against the base-level `#guarded`; on a match the
(empty) body runs and the method returns `undefined`. -/
def Inst.guardedMethodA (inst : Inst) (g : Nat) : Except JsError Unit :=
  if g ≠ inst.guarded then Except.error (JsError.err "Unauthorized method call")
  else Except.ok ()

/-- The `Sub`-level pseudo-protected method of protected-sub.js and the test
subclass (which returns the string `'authorized'` as its guarded body):
the supplied reference is compared by identity against `Sub`'s own slot
(level 0 of the hierarchy); `some g` never equals an unset slot, matching
`object !== undefined` in JavaScript. -/
def Inst.guardedMethodSub (inst : Inst) (g : Nat) : Except JsError String :=
  if some g ≠ inst.slots 0 then Except.error (JsError.err "Unauthorized method call")
  else Except.ok "authorized"

/-- An instance of the cross-instance variant of the base class: its object
identity `xid` (the WeakMap key), its prototype `proto` (compared by the
strict variant), and its base-level `#guarded`. -/
structure XInst where
  xid : Nat
  proto : Nat
  guarded : Nat

/-- `_getGuardedFor (auth, otherInstance)` of the permissive cross-instance
variant: authenticate `auth` against the caller's own `#guarded`, then
return `guardedMap.get(otherInstance)` — `none` when `otherInstance` was
never constructed through the mechanism (no WeakMap entry). `gmap` is the
module-level `guardedMap`, keyed by instance identity. -/
def getGuardedFor (self : XInst) (gmap : Nat → Option Nat) (auth : Nat)
    (other : XInst) : Except JsError (Option Nat) :=
  if auth ≠ self.guarded then Except.error (JsError.err "Unauthorized method call")
  else Except.ok (gmap other.xid)

/-- `_getGuardedFor (auth, otherInstance)` of the stricter cross-instance
variant: after the same authorization check, compare
`Object.getPrototypeOf(this)` with `Object.getPrototypeOf(otherInstance)`
and throw a `TypeError` on mismatch before consulting the WeakMap. -/
def getGuardedForStrict (self : XInst) (gmap : Nat → Option Nat) (auth : Nat)
    (other : XInst) : Except JsError (Option Nat) :=
  if auth ≠ self.guarded then Except.error (JsError.err "Unauthorized method call")
  else if self.proto ≠ other.proto then
    Except.error (JsError.typeError "Will not get protected properties across different types")
  else Except.ok (gmap other.xid)

/-- An object allocator: `counter` is the next fresh object identity, and
`contents` records the own properties of every allocated object. -/
structure Alloc where
  counter : Nat
  contents : Nat → List (String × Nat)

/-- Evaluation of the object literal `{ }` in the base constructor
(`this.#guarded = { /* protected properties */ }`): a fresh identity with an
empty property bag, together with the advanced allocator. -/
def allocEmptyObject (a : Alloc) : Nat × Alloc :=
  ⟨a.counter, ⟨a.counter + 1, fun i => if i = a.counter then [] else a.contents i⟩⟩

/-- Full construction of a depth-`n` instance with a real allocation step:
the base constructor creates the fresh GuardedState object first, and the
rest of construction proceeds as in `constructChain`. -/
def constructInstFresh (n : Nat) (a : Alloc) : Inst × Alloc :=
  ⟨constructChain n (allocEmptyObject a).1, (allocEmptyObject a).2⟩

/-- A misbehaving subscriber: a callback whose body always throws (before
making any state change).  Its function-object identity is 100. -/
def throwingCb : Callback Slots :=
  ⟨100, fun _ _ => none⟩

lemma applyAll_subGuarded_of_populated {s : Slots} {n : Nat} (gNew : Nat)
    (h : ∀ i, i < n → (s i).isSome) :
    applyAll gNew (subGuarded n) s = s := by
  induction n with
  | zero => rfl
  | succ m ih =>
    rw [subGuarded, applyAll_append, ih (fun i hi => h i (Nat.lt_succ_of_lt hi))]
    have hrun : (levelCallback m).run gNew s = some (levelAssign m gNew s) := rfl
    rw [applyAll_cons_some hrun]
    show levelAssign m gNew s = s
    funext j
    by_cases hj : j = m
    · subst hj
      obtain ⟨x, hx⟩ := Option.isSome_iff_exists.mp (h j (Nat.lt_succ_self j))
      simp [levelAssign, hx]
    · simp [levelAssign, hj]

/-- C1: in every hierarchy built on the base class (each level declaring its
own private slot, overriding `_subGuarded` parent-first, and calling
`_getGuarded` after `super()`), once the most-derived constructor completes,
every level-local slot holds, by object identity, the single GuardedState
created by the base constructor, so all level-local slots of one instance
are pairwise identical. -/
theorem construct_slots_all_identical (n g : Nat) :
    (constructChain n g).guarded = g ∧
    (∀ i, i < n → (constructChain n g).slots i = some g) ∧
    (∀ i j, i < n → j < n →
      (constructChain n g).slots i = (constructChain n g).slots j) := by
  rw [constructChain_eq]
  exact ⟨rfl, fun i hi => by simp [hi], fun i j hi hj => by simp [hi, hj]⟩

theorem construct_slots_all_identical_witness :
    (constructChain 2 7).guarded = 7 ∧ (constructChain 2 7).slots 0 = some 7 ∧
      (constructChain 2 7).slots 1 = (constructChain 2 7).slots 0 :=
  ⟨(construct_slots_all_identical 2 7).1,
   (construct_slots_all_identical 2 7).2.1 0 (by decide),
   (construct_slots_all_identical 2 7).2.2 1 0 (by decide) (by decide)⟩

/-- C5: in a `_getGuarded` call where no pending callback throws, every
callback pending at the start of the call is invoked exactly once with the
GuardedState — the invocation log equals the pending list's ids in
insertion order, so removal during iteration neither skips nor repeats an
entry — and the pending set is empty when the call returns. -/
theorem distribute_all_when_no_throw {σ : Type} (g : Nat)
    (subs : List (Callback σ)) (s : σ)
    (h : ∀ cb ∈ subs, ∀ t, (cb.run g t).isSome) :
    distributeLoop g subs s =
        ⟨false, [], applyAll g subs s, subs.map (fun c => c.cid)⟩ ∧
      ((subs.map (fun c => c.cid)).Nodup →
        ∀ cb ∈ subs, (distributeLoop g subs s).invoked.count cb.cid = 1) := by
  refine ⟨distributeLoop_ok h s, fun hnd cb hcb => ?_⟩
  rw [distributeLoop_ok h s]
  exact List.count_eq_one_of_mem hnd (List.mem_map_of_mem _ hcb)

theorem distribute_all_when_no_throw_witness :
    distributeLoop 9 [levelCallback 0] (fun _ => none) =
        ⟨false, [], applyAll 9 [levelCallback 0] (fun _ => none),
         [levelCallback 0].map (fun c => c.cid)⟩ ∧
      (distributeLoop 9 [levelCallback 0] (fun _ => none)).invoked.count 0 = 1 :=
  ⟨(distribute_all_when_no_throw 9 [levelCallback 0] (fun _ => none)
      (by intro cb hcb t; rw [List.mem_singleton] at hcb; subst hcb; rfl)).1,
   (distribute_all_when_no_throw 9 [levelCallback 0] (fun _ => none)
      (by intro cb hcb t; rw [List.mem_singleton] at hcb; subst hcb; rfl)).2
     (by decide) (levelCallback 0) (List.mem_singleton.mpr rfl)⟩

/-- C6: the pending set is populated in hierarchy initialization order —
the registration collected by the base constructor is exactly the level
callbacks for levels `0, 1, ..., n-1` (root-most subscriber first,
most-derived last), because every `_subGuarded` override delegates to its
parent before adding its own callback — and `_getGuarded` invokes the
pending callbacks in that insertion order. -/
theorem subs_registration_order (n g : Nat) :
    (baseConstruct n g).subs = (List.range n).map levelCallback ∧
    (distributeLoop g (baseConstruct n g).subs (baseConstruct n g).slots).invoked =
      List.range n := by
  refine ⟨subGuarded_eq_map n, ?_⟩
  rw [show (baseConstruct n g).subs = subGuarded n from rfl,
    distributeLoop_ok (subGuarded_neverThrows g n), subGuarded_eq_map, List.map_map]
  rw [show ((fun c : Callback Slots => c.cid) ∘ levelCallback) = id from rfl, List.map_id]

/-- C9: every run of the base constructor evaluates the object literal
`{ }`, producing a fresh, empty GuardedState, so two independently
constructed instances — including two of the same depth, i.e. the same
type — never hold the same GuardedState object by identity. -/
theorem guardedState_fresh_per_instance (n1 n2 : Nat) (a : Alloc) :
    (constructInstFresh n1 a).2.contents (constructInstFresh n1 a).1.guarded = [] ∧
    (constructInstFresh n1 a).1.guarded ≠
      (constructInstFresh n2 (constructInstFresh n1 a).2).1.guarded := by
  have h1 : (constructInstFresh n1 a).1.guarded = a.counter := by
    show (constructChain n1 a.counter).guarded = a.counter
    rw [constructChain_eq]
  have h2 : (constructInstFresh n2 (constructInstFresh n1 a).2).1.guarded =
      a.counter + 1 := by
    show (constructChain n2 (a.counter + 1)).guarded = a.counter + 1
    rw [constructChain_eq]
  refine ⟨?_, ?_⟩
  · rw [h1]
    show (if a.counter = a.counter then [] else a.contents a.counter) = []
    simp
  · rw [h1, h2]
    omega

/-- C10: if the `k`-th pending callback (in insertion order) throws during a
`_getGuarded` call, iteration stops there: each callback before it has been
invoked with the GuardedState and removed from the pending set (the state
reflects exactly their effects), while the throwing callback and every
callback after it remain pending, and the invocation log shows that no
callback after the thrower was invoked in that call. -/
theorem distribute_throw_stops_iteration {σ : Type} (g : Nat)
    (pre post : List (Callback σ)) (cb : Callback σ) (s : σ)
    (hpre : ∀ c ∈ pre, ∀ t, (c.run g t).isSome)
    (hcb : ∀ t, cb.run g t = none) :
    distributeLoop g (pre ++ cb :: post) s =
      ⟨true, cb :: post, applyAll g pre s, pre.map (fun c => c.cid) ++ [cb.cid]⟩ :=
  distributeLoop_throw post hpre hcb s

theorem distribute_throw_stops_iteration_witness :
    distributeLoop 4 ([levelCallback 0] ++ throwingCb :: [levelCallback 1])
        (fun _ => none) =
      ⟨true, throwingCb :: [levelCallback 1],
       applyAll 4 [levelCallback 0] (fun _ => none),
       [levelCallback 0].map (fun c => c.cid) ++ [throwingCb.cid]⟩ :=
  distribute_throw_stops_iteration 4 [levelCallback 0] [levelCallback 1] throwingCb
    (fun _ => none)
    (by intro c hc t; rw [List.mem_singleton] at hc; subst hc; rfl)
    (fun t => rfl)

/-- C2: write-once law.  First conjunct: a level callback invoked again on a
slot already holding an object keeps the old value (`||=` does not assign
over a truthy slot), whatever object is offered.  Second conjunct: the
demo's post-construction attack — build a fresh pending `Set`, pass it to
`_subGuarded` (collecting the level callbacks anew), and invoke every
collected callback with a replacement object — leaves every slot of the
constructed instance, and hence its visible guarded state, unchanged. -/
theorem slot_write_once (n g gNew i x : Nat) (s : Slots) (h : s i = some x) :
    levelAssign i gNew s i = some x ∧
    applyAll gNew (subGuarded n) (constructChain n g).slots =
      (constructChain n g).slots := by
  refine ⟨by simp [levelAssign, h], ?_⟩
  rw [constructChain_eq]
  exact applyAll_subGuarded_of_populated gNew (fun j hj => by simp [hj])

theorem slot_write_once_witness :
    levelAssign 0 1 (fun _ => some 5) 0 = some 5 ∧
    applyAll 1 (subGuarded 1) (constructChain 1 0).slots =
      (constructChain 1 0).slots :=
  slot_write_once 1 0 1 0 5 (fun _ => some 5) rfl

/-- C3 counterexample: with pending set `[throwingCb, levelCallback 0]`, the
other pending callback (`levelCallback 0`, id 0) is NOT invoked with the
GuardedState in the same `_getGuarded` call in which `throwingCb` throws —
the invocation log of the call is `[100]`, id 0 is absent from it, and
level 0's slot is still unset afterwards.  This refutes the claim that
every other callback pending at the start of the call is still invoked in
that same call: the `try` wraps the whole loop, so a throw aborts the rest
of the iteration. -/
theorem distribution_blocking_counterexample :
    0 ∉ (distributeLoop 5 [throwingCb, levelCallback 0] (fun _ => none)).invoked ∧
    (distributeLoop 5 [throwingCb, levelCallback 0] (fun _ => none)).invoked =
      [100] ∧
    (distributeLoop 5 [throwingCb, levelCallback 0] (fun _ => none)).state 0 =
      none := by
  have h : (distributeLoop 5 [throwingCb, levelCallback 0]
      (fun _ => (none : Option Nat))).invoked = [100] := rfl
  refine ⟨?_, h, rfl⟩
  rw [h]
  decide

/-- C3 (amended): within a single `_getGuarded` call in which one pending
callback throws, every pending callback that precedes the thrower in
insertion order is still invoked with the GuardedState in that same call;
the thrower and the callbacks after it are not invoked in that call and
remain in the pending set for the next distribution call. -/
theorem distribute_throw_prefix_delivered {σ : Type} (g : Nat)
    (pre post : List (Callback σ)) (cb : Callback σ) (s : σ)
    (hpre : ∀ c ∈ pre, ∀ t, (c.run g t).isSome)
    (hcb : ∀ t, cb.run g t = none) :
    (distributeLoop g (pre ++ cb :: post) s).invoked =
        pre.map (fun c => c.cid) ++ [cb.cid] ∧
      (distributeLoop g (pre ++ cb :: post) s).pending = cb :: post := by
  rw [distributeLoop_throw post hpre hcb s]
  exact ⟨rfl, rfl⟩

theorem distribute_throw_prefix_delivered_witness :
    (distributeLoop 6 ([levelCallback 0] ++ throwingCb :: []) (fun _ => none)).invoked =
        [levelCallback 0].map (fun c => c.cid) ++ [throwingCb.cid] ∧
      (distributeLoop 6 ([levelCallback 0] ++ throwingCb :: [])
          (fun _ => none)).pending = throwingCb :: [] :=
  distribute_throw_prefix_delivered 6 [levelCallback 0] [] throwingCb (fun _ => none)
    (by intro c hc t; rw [List.mem_singleton] at hc; subst hc; rfl)
    (fun t => rfl)

/-- C4: when an invoked pending callback throws during `_getGuarded`, the
error does not propagate to the caller — the loop's error flag is raised,
but the empty `catch` swallows it and the method returns a normal instance
state — and the throwing callback was not deleted, so it is still pending
afterwards and is invoked again by the next explicit `_getGuarded` call. -/
theorem getGuarded_swallows_and_retries (pre post : List (Callback Slots))
    (cb : Callback Slots) (inst : Inst)
    (hsubs : inst.subs = pre ++ cb :: post)
    (hpre : ∀ c ∈ pre, ∀ t, (c.run inst.guarded t).isSome)
    (hcb : ∀ t, cb.run inst.guarded t = none) :
    (distributeLoop inst.guarded inst.subs inst.slots).threw = true ∧
    inst.getGuarded.subs = cb :: post ∧
    cb.cid ∈ (distributeLoop inst.getGuarded.guarded inst.getGuarded.subs
        inst.getGuarded.slots).invoked := by
  have hloop := distributeLoop_throw post hpre hcb inst.slots
  have h1 : (distributeLoop inst.guarded inst.subs inst.slots).threw = true := by
    rw [hsubs, hloop]
  have h2 : inst.getGuarded.subs = cb :: post := by
    show (distributeLoop inst.guarded inst.subs inst.slots).pending = cb :: post
    rw [hsubs, hloop]
  refine ⟨h1, h2, ?_⟩
  rw [show inst.getGuarded.guarded = inst.guarded from rfl, h2,
    distributeLoop_cons_none (hcb inst.getGuarded.slots)]
  exact List.mem_singleton.mpr rfl

/-- A concrete instance whose pending set holds one well-behaved level
callback followed by a throwing subscriber. -/
def instWithThrower : Inst :=
  ⟨3, fun _ => none, [levelCallback 0, throwingCb]⟩

theorem getGuarded_swallows_and_retries_witness :
    (distributeLoop instWithThrower.guarded instWithThrower.subs
        instWithThrower.slots).threw = true ∧
    instWithThrower.getGuarded.subs = throwingCb :: [] ∧
    throwingCb.cid ∈ (distributeLoop instWithThrower.getGuarded.guarded
        instWithThrower.getGuarded.subs instWithThrower.getGuarded.slots).invoked :=
  getGuarded_swallows_and_retries [levelCallback 0] [] throwingCb instWithThrower rfl
    (by intro c hc t; rw [List.mem_singleton] at hc; subst hc; rfl)
    (fun t => rfl)

/-- C7: a pseudo-protected method invoked with a reference `x` that is not
identical to the callee's own GuardedState `g` throws the
`Unauthorized method call` error and its guarded body never runs (the
result is the error, not the body's value); invoked with `g` itself it
succeeds.  Stated for both the `Sub`-level method (which authenticates
against the level-0 slot and whose body returns `'authorized'`) and the
base-level method (which authenticates against the base `#guarded`). -/
theorem guardedMethod_access_control (n g x : Nat) (hn : 0 < n) :
    (x ≠ g → (constructChain n g).guardedMethodSub x =
        Except.error (JsError.err "Unauthorized method call")) ∧
    (constructChain n g).guardedMethodSub g = Except.ok "authorized" ∧
    (x ≠ g → (constructChain n g).guardedMethodA x =
        Except.error (JsError.err "Unauthorized method call")) ∧
    (constructChain n g).guardedMethodA g = Except.ok () := by
  rw [constructChain_eq]
  have hs : (Inst.mk g (fun i => if i < n then some g else none) []).slots 0 =
      some g := by simp [hn]
  refine ⟨fun hx => ?_, ?_, fun hx => ?_, ?_⟩
  · simp [Inst.guardedMethodSub, hs, hx]
  · simp [Inst.guardedMethodSub, hs]
    omega
  · simp [Inst.guardedMethodA, hx]
  · simp [Inst.guardedMethodA]

theorem guardedMethod_access_control_witness :
    ((constructChain 1 5).guardedMethodSub 4 =
        Except.error (JsError.err "Unauthorized method call")) ∧
    (constructChain 1 5).guardedMethodSub 5 = Except.ok "authorized" :=
  ⟨(guardedMethod_access_control 1 5 4 (by decide)).1 (by decide),
   (guardedMethod_access_control 1 5 4 (by decide)).2.1⟩

/-- C8: `_getGuardedFor(auth, otherInstance)`.  If `auth` is not identical
to the callee's own GuardedState, both variants throw the authorization
error.  Otherwise the permissive variant returns the WeakMap entry for
`otherInstance` — `none` when that instance was never constructed through
the mechanism.  The strict variant additionally throws a distinct
`TypeError` when the two prototypes differ, and otherwise behaves like the
permissive one. -/
theorem getGuardedFor_access_control (self other : XInst)
    (gmap : Nat → Option Nat) (auth : Nat) :
    (auth ≠ self.guarded →
      getGuardedFor self gmap auth other =
          Except.error (JsError.err "Unauthorized method call") ∧
        getGuardedForStrict self gmap auth other =
          Except.error (JsError.err "Unauthorized method call")) ∧
    (auth = self.guarded →
      getGuardedFor self gmap auth other = Except.ok (gmap other.xid)) ∧
    (auth = self.guarded → self.proto ≠ other.proto →
      getGuardedForStrict self gmap auth other =
        Except.error
          (JsError.typeError "Will not get protected properties across different types")) ∧
    (auth = self.guarded → self.proto = other.proto →
      getGuardedForStrict self gmap auth other = Except.ok (gmap other.xid)) := by
  refine ⟨fun h => ⟨?_, ?_⟩, fun h => ?_, fun h hp => ?_, fun h hp => ?_⟩ <;>
    simp_all [getGuardedFor, getGuardedForStrict]

/-- The caller in the C8 witness: identity 0, prototype 10, GuardedState 20. -/
def xSelf : XInst := ⟨0, 10, 20⟩

/-- The target in the C8 witness: identity 1, prototype 11, GuardedState 21. -/
def xOther : XInst := ⟨1, 11, 21⟩

/-- The C8 witness's `guardedMap`: only `xOther` has been constructed. -/
def xMap : Nat → Option Nat := fun i => if i = 1 then some 21 else none

theorem getGuardedFor_access_control_witness :
    getGuardedFor xSelf xMap 3 xOther =
        Except.error (JsError.err "Unauthorized method call") ∧
    getGuardedFor xSelf xMap 20 xOther = Except.ok (xMap xOther.xid) ∧
    getGuardedForStrict xSelf xMap 20 xOther =
      Except.error
        (JsError.typeError "Will not get protected properties across different types") :=
  ⟨((getGuardedFor_access_control xSelf xOther xMap 3).1 (by decide)).1,
   (getGuardedFor_access_control xSelf xOther xMap 20).2.1 rfl,
   (getGuardedFor_access_control xSelf xOther xMap 20).2.2.1 rfl (by decide)⟩

end ProtectedJs
